import Mathlib

/-!
Verification of the Playback Token Service contract and the mobile client's
API-wrapper behavior for the video-player app.

The token service (issuer, verifier, codec, replay policy) runs in the
external Flask backend; its contract is documented in the repository, and the
definitions below are modelled from that documentation.  The client-side
operations (watch-progress tracking, logout) are embedded directly from the
mobile app's API service module.
-/

namespace TokenService

/-- Modelled from the spec: `PlaybackClaim`, the signed payload.  Opaque
identifiers and timestamps are modelled as naturals. -/
structure PlaybackClaim where
  subject_user_id : Nat
  media_id : Nat
  issued_at : Nat
  expires_at : Nat
  nonce : Nat
deriving DecidableEq, Repr

/-- Modelled from the spec: decode failure taxonomy of the Token Codec
(wrong field count / malformed shape). -/
inductive DecodeError where
  | wrongFieldCount
deriving DecidableEq, Repr

/-- Modelled from the spec: deterministic encoding of a claim as a fixed
five-field sequence (the claim is a fixed-shape record, not an open map). -/
def encode (c : PlaybackClaim) : List Nat :=
  [c.subject_user_id, c.media_id, c.issued_at, c.expires_at, c.nonce]

/-- Modelled from the spec: `decode(bytes) -> claim | DecodeError`; rejects
input with the wrong field count, returning a typed failure (never crashing). -/
def decode (bs : List Nat) : Except DecodeError PlaybackClaim :=
  match bs with
  | [s, m, i, e, n] => .ok ⟨s, m, i, e, n⟩
  | _ => .error .wrongFieldCount

/-- Injective numeric digest of a byte sequence, used to model the MAC. -/
def digestBytes : List Nat → Nat
  | [] => 0
  | b :: bs => Nat.pair b (digestBytes bs) + 1

/-- Modelled from the spec: the signature/MAC over the encoded claim bytes,
computed with a secret key.  The spec's invariant — any mutation of the
encoded claim invalidates the signature — is modelled by making the MAC
injective in (secret, message). -/
def mac (secret : Nat) (msg : List Nat) : Nat :=
  Nat.pair secret (digestBytes msg)

/-- Modelled from the spec: `PlaybackToken`, the opaque string split into its
encoded-claim portion and its signature portion. -/
structure PlaybackToken where
  body : List Nat
  sig : Nat
deriving DecidableEq, Repr

/-- Modelled from the spec: a media-catalog record (`media_id -> is_active`
and `media_id -> MediaLocator` collaborators). -/
structure MediaRecord where
  active : Bool
  locator : String
deriving DecidableEq, Repr

/-- Modelled from the spec: the backend media-catalog lookup collaborator. -/
abbrev MediaStore : Type := Nat → Option MediaRecord

/-- Modelled from the spec: process-wide read-only configuration — signing
secret, maximum TTL, and whether single-use policy is enforced. -/
structure Config where
  secret : Nat
  maxTtl : Nat
  singleUse : Bool

/-- Modelled from the spec: issuance-time error taxonomy. -/
inductive IssueError where
  | notFound
  | invalidTtl
deriving DecidableEq, Repr

/-- Modelled from the spec: verification-time error taxonomy. -/
inductive VerifyError where
  | invalidSignature
  | malformedToken
  | expiredToken
  | principalMismatch
  | replayedToken
  | notFound
deriving DecidableEq, Repr

/-- Modelled from the spec: the Replay/Scope Policy's consumption table,
the set of `(subject_user_id, media_id, nonce)` tuples already consumed. -/
abbrev PolicyState : Type := List (Nat × Nat × Nat)

/-- Modelled from the spec: `issue(subject_user_id, media_id, ttl_seconds)`.
Requires a positive, bounded TTL and an existing active media record; builds
the claim with `issued_at = now`, `expires_at = now + ttl`, encodes it and
signs the encoded bytes.  The fresh random nonce is supplied as a parameter. -/
def issue (cfg : Config) (store : MediaStore) (now nonce : Nat)
    (user media ttl : Nat) : Except IssueError PlaybackToken :=
  if ttl = 0 ∨ cfg.maxTtl < ttl then .error .invalidTtl
  else
    match store media with
    | some rec =>
        if rec.active then
          let body := encode ⟨user, media, now, now + ttl, nonce⟩
          .ok ⟨body, mac cfg.secret body⟩
        else .error .notFound
    | none => .error .notFound

/-- Modelled from the spec: `verify(token_string, requesting_user_id)`.
Checks, in order: signature, decodability, expiry (`now <= expires_at`
accepted), principal binding, replay policy; then resolves the media locator
and marks the nonce consumed when single-use. -/
def verify (cfg : Config) (store : MediaStore) (st : PolicyState) (now : Nat)
    (tok : PlaybackToken) (requester : Nat) :
    Except VerifyError (String × PolicyState) :=
  if mac cfg.secret tok.body = tok.sig then
    match decode tok.body with
    | .error _ => .error .malformedToken
    | .ok claim =>
        if now ≤ claim.expires_at then
          if claim.subject_user_id = requester then
            if cfg.singleUse = true ∧
                (claim.subject_user_id, claim.media_id, claim.nonce) ∈ st then
              .error .replayedToken
            else
              match store claim.media_id with
              | some rec =>
                  .ok (rec.locator,
                    if cfg.singleUse then
                      (claim.subject_user_id, claim.media_id, claim.nonce) :: st
                    else st)
              | none => .error .notFound
          else .error .principalMismatch
        else .error .expiredToken
  else .error .invalidSignature

/-- Modelled from the spec: the consumption table supports atomic
check-and-set, so N concurrent redemption attempts of one token linearize
into a sequence of verifications; this runs that sequence, threading the
policy state and collecting each attempt's outcome. -/
def runAttempts (cfg : Config) (store : MediaStore) (now : Nat)
    (tok : PlaybackToken) (requester : Nat) :
    Nat → PolicyState → List (Except VerifyError String) × PolicyState
  | 0, st => ([], st)
  | n + 1, st =>
      match verify cfg store st now tok requester with
      | .ok (loc, st2) =>
          let rest := runAttempts cfg store now tok requester n st2
          (.ok loc :: rest.1, rest.2)
      | .error e =>
          let rest := runAttempts cfg store now tok requester n st
          (.error e :: rest.1, rest.2)

end TokenService

namespace Client

/-- A failed HTTP request, as surfaced by the axios client (an HTTP error
response, or no response at all). -/
inductive ApiFailure where
  | httpError (status : Nat)
  | networkError
deriving DecidableEq, Repr

/-- The request body posted to the watch-tracking endpoint: a video id and
the progress in seconds. -/
structure TrackRequest where
  video_id : Nat
  progress_seconds : Nat
deriving DecidableEq, Repr

/-- A backend response body, carrying its success flag. -/
structure TrackResponse where
  success : Bool
deriving DecidableEq, Repr

/-- The API service's watch-progress tracker: posts the video id and progress
to the backend and catches any request failure, returning a response with
success set to false instead of rethrowing.  The network is modelled as a
function from the request to the outcome of the HTTP call; the Except result
type models possible exception propagation, with .error meaning the
operation throws to its caller. -/
def trackWatchProgress (net : TrackRequest → Except ApiFailure TrackResponse)
    (videoId progressSeconds : Nat) : Except ApiFailure TrackResponse :=
  match net ⟨videoId, progressSeconds⟩ with
  | .ok resp => .ok resp
  | .error _ => .ok ⟨false⟩

/-- The three SecureStore slots the API service manages: the access token,
the refresh token, and the serialized user data. -/
structure Storage where
  auth_token : Option String
  refresh_token : Option String
  user_data : Option String
deriving DecidableEq, Repr

/-- The API service's removeTokens: deletes all three stored items. -/
def removeTokens (_s : Storage) : Storage :=
  { auth_token := none, refresh_token := none, user_data := none }

/-- The API service's logout: attempts the logout POST, swallows any API
error in a catch block, and removes the stored tokens in a finally block,
so the removal happens on both outcomes. -/
def logout (outcome : Except ApiFailure Unit) (s : Storage) : Storage :=
  match outcome with
  | .ok _ => removeTokens s
  | .error _ => removeTokens s

/-- The in-memory authentication state the AuthProvider context manages. -/
structure AuthState where
  user : Option String
  isAuthenticated : Bool
deriving DecidableEq, Repr

/-- The AuthProvider's logout: awaits the API-service logout and, in a
finally block, clears the user and the isAuthenticated flag. -/
def providerLogout (outcome : Except ApiFailure Unit) (s : Storage)
    (_st : AuthState) : Storage × AuthState :=
  (logout outcome s, { user := none, isAuthenticated := false })

end Client

namespace TokenService

/-- A concrete single-use configuration for the concrete runs below. -/
def cfgS : Config := ⟨7, 100, true⟩

/-- A concrete multi-use configuration. -/
def cfgM : Config := ⟨7, 100, false⟩

/-- A concrete media store holding one active record at media id 42. -/
def store42 : MediaStore :=
  fun m => if m = 42 then some ⟨true, "locator42"⟩ else none

/-- The concrete claim issued to user 1 for media 42 at time 0, ttl 60,
nonce 5. -/
def claim1 : PlaybackClaim := ⟨1, 42, 0, 60, 5⟩

/-- The token carrying claim1, signed with the secret of cfgS. -/
def tok1 : PlaybackToken := ⟨encode claim1, mac 7 (encode claim1)⟩

/-- The byte-sequence digest is injective. -/
theorem digestBytes_inj : ∀ xs ys : List Nat,
    digestBytes xs = digestBytes ys → xs = ys
  | [], [], _ => rfl
  | [], _ :: _, h => by simp [digestBytes] at h
  | _ :: _, [], h => by simp [digestBytes] at h
  | a :: as, b :: bs, h => by
      simp only [digestBytes, Nat.add_right_cancel_iff] at h
      obtain ⟨h1, h2⟩ := Nat.pair_eq_pair.mp h
      rw [h1, digestBytes_inj as bs h2]

/-- The MAC is injective in the message for a fixed secret. -/
theorem mac_inj {secret : Nat} {m1 m2 : List Nat}
    (h : mac secret m1 = mac secret m2) : m1 = m2 :=
  digestBytes_inj m1 m2 (Nat.pair_eq_pair.mp h).2

/-- Setting position i of a list to a value different from the one stored
there yields a different list. -/
theorem set_ne_of_getne : ∀ (l : List Nat) (i b : Nat) (h : i < l.length),
    b ≠ l.get ⟨i, h⟩ → l.set i b ≠ l
  | _ :: _, 0, _, _, hb => by
      intro he
      injection he with h1 _
      exact hb h1
  | a :: as, i + 1, b, h, hb => by
      intro he
      injection he with _ h2
      exact set_ne_of_getne as i b (Nat.lt_of_succ_lt_succ h) hb h2

/-- A successfully issued token consists of the encoding of the claim built
from the request, signed with the configured secret. -/
theorem issue_ok_shape {cfg : Config} {store : MediaStore}
    {now nonce user media ttl : Nat} {tok : PlaybackToken}
    (h : issue cfg store now nonce user media ttl = Except.ok tok) :
    tok = ⟨encode ⟨user, media, now, now + ttl, nonce⟩,
           mac cfg.secret (encode ⟨user, media, now, now + ttl, nonce⟩)⟩ := by
  unfold issue at h
  split at h
  · exact absurd h (by simp)
  · split at h
    · split at h
      · injection h with h1
        exact h1.symm
      · exact absurd h (by simp)
    · exact absurd h (by simp)

/-- Evaluation of verify on a genuinely signed, well-formed token: the
signature and decode steps pass and the remaining checks run in order. -/
theorem verify_issued (cfg : Config) (store : MediaStore) (st : PolicyState)
    (now2 requester : Nat) (c : PlaybackClaim) :
    verify cfg store st now2 ⟨encode c, mac cfg.secret (encode c)⟩ requester =
      (if now2 ≤ c.expires_at then
        if c.subject_user_id = requester then
          if cfg.singleUse = true ∧
              (c.subject_user_id, c.media_id, c.nonce) ∈ st then
            .error .replayedToken
          else
            match store c.media_id with
            | some rec =>
                .ok (rec.locator,
                  if cfg.singleUse then
                    (c.subject_user_id, c.media_id, c.nonce) :: st
                  else st)
            | none => .error .notFound
        else .error .principalMismatch
      else .error .expiredToken) := by
  simp [verify, decode, encode]

end TokenService

namespace TokenService

/-- Claim C1: for every valid triple (user, media, ttl) — positive TTL within
the configured bound, media resolving to an existing active record — verifying
the token returned by issue with the same requesting user, at any time up to
the token's expiry, succeeds and returns the MediaLocator associated with
that media. -/
theorem issue_verify_roundtrip
    (cfg : Config) (store : MediaStore) (st : PolicyState)
    (now nonce user media ttl now2 : Nat) (rec : MediaRecord)
    (tok : PlaybackToken)
    (_httl : 0 < ttl) (_hmax : ttl ≤ cfg.maxTtl)
    (hstore : store media = some rec) (_hactive : rec.active = true)
    (hissue : issue cfg store now nonce user media ttl = Except.ok tok)
    (hfresh : (user, media, nonce) ∉ st)
    (htime : now2 ≤ now + ttl) :
    ∃ st2 : PolicyState,
      verify cfg store st now2 tok user = Except.ok (rec.locator, st2) := by
  have hshape := issue_ok_shape hissue
  subst hshape
  refine ⟨if cfg.singleUse then (user, media, nonce) :: st else st, ?_⟩
  rw [verify_issued]
  simp [htime, hstore, hfresh]

/-- Claim C1 witness: a concrete issue-then-verify run that succeeds. -/
theorem issue_verify_roundtrip_witness :
    ∃ st2 : PolicyState,
      verify cfgS store42 [] 30 tok1 1 = Except.ok ("locator42", st2) :=
  issue_verify_roundtrip cfgS store42 [] 0 5 1 42 60
    30 ⟨true, "locator42"⟩ tok1
    (by decide) (by decide) rfl rfl rfl (by simp) (by decide)

/-- If decode accepts a byte sequence, that sequence is exactly the encoding
of the returned claim. -/
theorem decode_ok_encode {bs : List Nat} {c : PlaybackClaim}
    (h : decode bs = Except.ok c) : encode c = bs := by
  unfold decode at h
  split at h
  · injection h with h1
    rw [← h1]
    rfl
  · exact absurd h (by simp)

/-- Claim C7: decoding an encoded valid claim returns the claim, and encode
is deterministic — equal claims serialize to identical byte strings. -/
theorem codec_roundtrip (c : PlaybackClaim)
    (hvalid : c.issued_at < c.expires_at) :
    decode (encode c) = Except.ok c ∧
    ∀ c2 : PlaybackClaim, c = c2 → encode c = encode c2 := by
  constructor
  · cases c
    rfl
  · intro c2 h
    rw [h]

/-- Claim C7 witness: round-trip on a concrete valid claim. -/
theorem codec_roundtrip_witness :
    decode (encode ⟨1, 42, 0, 60, 5⟩) = Except.ok (⟨1, 42, 0, 60, 5⟩ : PlaybackClaim) :=
  (codec_roundtrip ⟨1, 42, 0, 60, 5⟩ (by decide)).1

/-- Claim C8: decode is a total function — on every input byte string it
returns either a structurally valid claim (one whose encoding is exactly the
input) or a typed DecodeError; it never escapes with an unhandled fault. -/
theorem decode_never_crashes (bs : List Nat) :
    (∃ c : PlaybackClaim, decode bs = Except.ok c ∧ encode c = bs) ∨
    ∃ e : DecodeError, decode bs = Except.error e := by
  cases h : decode bs with
  | ok c => exact Or.inl ⟨c, rfl, decode_ok_encode h⟩
  | error e => exact Or.inr ⟨e, rfl⟩

end TokenService

namespace Client

/-- Claim C9: trackWatchProgress never throws — for every video id, progress
value and network outcome it returns normally, and on any request failure it
returns the success-false response instead of propagating the error. -/
theorem trackWatchProgress_never_throws
    (net : TrackRequest → Except ApiFailure TrackResponse)
    (videoId progressSeconds : Nat) :
    (∃ r : TrackResponse,
      trackWatchProgress net videoId progressSeconds = Except.ok r) ∧
    (∀ e : ApiFailure, net ⟨videoId, progressSeconds⟩ = Except.error e →
      trackWatchProgress net videoId progressSeconds = Except.ok ⟨false⟩) := by
  cases h : net ⟨videoId, progressSeconds⟩ with
  | ok r =>
      refine ⟨⟨r, ?_⟩, ?_⟩
      · simp [trackWatchProgress, h]
      · intro e he
        exact absurd he (by simp)
  | error e =>
      refine ⟨⟨⟨false⟩, ?_⟩, ?_⟩ <;> intros <;> simp [trackWatchProgress, h]

/-- Claim C9 witness: a concrete failing request returns the success-false
response. -/
theorem trackWatchProgress_never_throws_witness :
    trackWatchProgress (fun _ => Except.error ApiFailure.networkError) 5 0 =
      Except.ok ⟨false⟩ :=
  (trackWatchProgress_never_throws
    (fun _ => Except.error ApiFailure.networkError) 5 0).2
    ApiFailure.networkError rfl

/-- Claim C10: logout always deletes the stored access token, refresh token
and user data, and clears the in-memory user and isAuthenticated state, for
every API-call outcome — including failure of the logout POST. -/
theorem logout_always_clears
    (outcome : Except ApiFailure Unit) (s : Storage) (st : AuthState) :
    (providerLogout outcome s st).1.auth_token = none ∧
    (providerLogout outcome s st).1.refresh_token = none ∧
    (providerLogout outcome s st).1.user_data = none ∧
    (providerLogout outcome s st).2.user = none ∧
    (providerLogout outcome s st).2.isAuthenticated = false := by
  cases outcome <;> simp [providerLogout, logout, removeTokens]

end Client

namespace TokenService

/-- Claim C2: for every issued token, changing any byte of the encoded-claim
portion before verification makes verify reject the token with
InvalidSignatureError, for every store, policy state, time and requester. -/
theorem tampered_claim_rejected
    (cfg : Config) (store : MediaStore) (st : PolicyState)
    (now nonce user media ttl now2 requester i b : Nat) (tok : PlaybackToken)
    (hissue : issue cfg store now nonce user media ttl = Except.ok tok)
    (hi : i < tok.body.length) (hb : b ≠ tok.body.get ⟨i, hi⟩) :
    verify cfg store st now2 ⟨tok.body.set i b, tok.sig⟩ requester =
      Except.error VerifyError.invalidSignature := by
  have hshape := issue_ok_shape hissue
  have hsig : tok.sig = mac cfg.secret tok.body := by rw [hshape]
  have hne : ¬ (mac cfg.secret (tok.body.set i b) = tok.sig) := by
    rw [hsig]
    intro h
    exact set_ne_of_getne tok.body i b hi hb (mac_inj h)
  simp [verify, hne]

/-- Claim C2 witness: flipping the first byte of the concrete token's
encoded claim yields InvalidSignatureError. -/
theorem tampered_claim_rejected_witness :
    verify cfgS store42 [] 30 ⟨tok1.body.set 0 2, tok1.sig⟩ 1 =
      Except.error VerifyError.invalidSignature :=
  tampered_claim_rejected cfgS store42 [] 0 5 1 42 60 30 1 0 2 tok1
    rfl (by decide) (by decide)

/-- Claim C3: the replay policy is a state machine per
(subject_user_id, media_id, nonce): under single-use policy the first
verification succeeds and moves the nonce entry from unseen to consumed, and
a second verification of the same token fails with ReplayedTokenError; under
multi-use policy the token verifies successfully for every policy state,
which is left unchanged (so any number of verifications succeed). -/
theorem replay_policy_state_machine
    (cfg : Config) (store : MediaStore) (st : PolicyState)
    (now nonce user media ttl now2 : Nat) (rec : MediaRecord)
    (tok : PlaybackToken)
    (hstore : store media = some rec)
    (hissue : issue cfg store now nonce user media ttl = Except.ok tok)
    (htime : now2 ≤ now + ttl) :
    (cfg.singleUse = true → (user, media, nonce) ∉ st →
      verify cfg store st now2 tok user =
        Except.ok (rec.locator, (user, media, nonce) :: st) ∧
      verify cfg store ((user, media, nonce) :: st) now2 tok user =
        Except.error VerifyError.replayedToken) ∧
    (cfg.singleUse = false → ∀ st2 : PolicyState,
      verify cfg store st2 now2 tok user = Except.ok (rec.locator, st2)) := by
  have hshape := issue_ok_shape hissue
  subst hshape
  refine ⟨fun hs hfresh => ⟨?_, ?_⟩, fun hm st2 => ?_⟩
  · rw [verify_issued]
    simp [htime, hstore, hfresh, hs]
  · rw [verify_issued]
    simp [htime, hs]
  · rw [verify_issued]
    simp [htime, hstore, hm]

/-- Claim C3 witness: a concrete single-use double redemption — the first
verification succeeds and consumes the nonce, the second is rejected as a
replay. -/
theorem replay_policy_state_machine_witness :
    verify cfgS store42 [] 30 tok1 1 =
      Except.ok ("locator42", [(1, 42, 5)]) ∧
    verify cfgS store42 [(1, 42, 5)] 30 tok1 1 =
      Except.error VerifyError.replayedToken :=
  (replay_policy_state_machine cfgS store42 [] 0 5 1 42 60 30
    ⟨true, "locator42"⟩ tok1 rfl rfl (by decide)).1 rfl (by simp)

/-- Claim C5: a token issued with ttl t yields ExpiredTokenError at every
time strictly after issued_at + t, for every requester and every policy
state — including one where the token's nonce is already consumed; at
exactly issued_at + t the verifier still accepts (the spec's
now <= expires_at step, taking an unconsumed nonce), the documented
boundary inclusivity. -/
theorem expiry_enforcement
    (cfg : Config) (store : MediaStore) (st : PolicyState)
    (now nonce user media ttl now2 requester : Nat) (rec : MediaRecord)
    (tok : PlaybackToken)
    (hstore : store media = some rec)
    (hissue : issue cfg store now nonce user media ttl = Except.ok tok) :
    (now + ttl < now2 →
      verify cfg store st now2 tok requester =
        Except.error VerifyError.expiredToken) ∧
    ((user, media, nonce) ∉ st →
      ∃ st2 : PolicyState,
        verify cfg store st (now + ttl) tok user =
          Except.ok (rec.locator, st2)) := by
  have hshape := issue_ok_shape hissue
  subst hshape
  constructor
  · intro hlate
    rw [verify_issued]
    simp [Nat.not_le.mpr hlate]
  · intro hfresh
    refine ⟨if cfg.singleUse then (user, media, nonce) :: st else st, ?_⟩
    rw [verify_issued]
    simp [hstore, hfresh]

/-- Claim C5 witness: the concrete token with ttl 60 is rejected as expired
at time 61 even by its own subject, and even though its nonce tuple is
already in the consumption table. -/
theorem expiry_enforcement_witness :
    verify cfgS store42 [(1, 42, 5)] 61 tok1 1 =
      Except.error VerifyError.expiredToken :=
  (expiry_enforcement cfgS store42 [(1, 42, 5)] 0 5 1 42 60 61 1
    ⟨true, "locator42"⟩ tok1 rfl rfl).1 (by decide)

end TokenService

namespace TokenService

/-- Claim C6 counterexample: tok1 was issued to user 1 with expiry 60;
verified at time 61 by the different user 2 it fails with ExpiredTokenError,
not PrincipalMismatchError — the expiry check runs before the principal
check, so the mismatch error does not occur regardless of expiry. -/
theorem principal_mismatch_counterexample :
    (2 : Nat) ≠ claim1.subject_user_id ∧
    issue cfgS store42 0 5 1 42 60 = Except.ok tok1 ∧
    verify cfgS store42 [] 61 tok1 2 =
      Except.error VerifyError.expiredToken ∧
    (Except.error VerifyError.expiredToken :
        Except VerifyError (String × PolicyState)) ≠
      Except.error VerifyError.principalMismatch := by
  refine ⟨by decide, rfl, rfl, by simp⟩

/-- Claim C6 (amended): for every issued token, verification by a requesting
user different from the token's subject fails with PrincipalMismatchError
provided the token is not yet expired — the expiry check runs first — and
this holds for every replay-policy state and signature-valid issued token. -/
theorem principal_mismatch_enforced
    (cfg : Config) (store : MediaStore) (st : PolicyState)
    (now nonce user media ttl now2 requester : Nat) (tok : PlaybackToken)
    (hissue : issue cfg store now nonce user media ttl = Except.ok tok)
    (htime : now2 ≤ now + ttl)
    (hreq : requester ≠ user) :
    verify cfg store st now2 tok requester =
      Except.error VerifyError.principalMismatch := by
  have hshape := issue_ok_shape hissue
  subst hshape
  rw [verify_issued]
  simp [htime, Ne.symm hreq]

/-- Claim C6 witness: the unexpired concrete token verified by user 2 is
rejected with PrincipalMismatchError. -/
theorem principal_mismatch_enforced_witness :
    verify cfgS store42 [] 30 tok1 2 =
      Except.error VerifyError.principalMismatch :=
  principal_mismatch_enforced cfgS store42 [] 0 5 1 42 60 30 2 tok1
    rfl (by decide) (by decide)

/-- Once the nonce tuple is in the consumption table, every further
single-use redemption attempt of the token fails as replayed and leaves the
table unchanged. -/
theorem runAttempts_consumed (cfg : Config) (store : MediaStore)
    (now2 : Nat) (c : PlaybackClaim) (m : Nat) (st2 : PolicyState)
    (hsingle : cfg.singleUse = true)
    (htime : now2 ≤ c.expires_at)
    (hmem : (c.subject_user_id, c.media_id, c.nonce) ∈ st2) :
    runAttempts cfg store now2 ⟨encode c, mac cfg.secret (encode c)⟩
      c.subject_user_id m st2 =
      (List.replicate m (Except.error VerifyError.replayedToken), st2) := by
  induction m with
  | zero => simp [runAttempts]
  | succ k ih =>
      have hv : verify cfg store st2 now2
          ⟨encode c, mac cfg.secret (encode c)⟩ c.subject_user_id =
          Except.error VerifyError.replayedToken := by
        rw [verify_issued]
        simp [htime, hsingle, hmem]
      simp [runAttempts, hv, ih, List.replicate_succ]

/-- Claim C4: N redemption attempts of one single-use token — linearized
into a sequence by the atomic consumption step of the policy table — yield
exactly one success (the first) and N-1 ReplayedTokenError results, so two
attempts can never both succeed. -/
theorem concurrent_redemption_single_success
    (cfg : Config) (store : MediaStore) (st : PolicyState)
    (now nonce user media ttl now2 n : Nat) (rec : MediaRecord)
    (tok : PlaybackToken)
    (hstore : store media = some rec)
    (hissue : issue cfg store now nonce user media ttl = Except.ok tok)
    (hsingle : cfg.singleUse = true)
    (hfresh : (user, media, nonce) ∉ st)
    (htime : now2 ≤ now + ttl)
    (hn : 1 ≤ n) :
    (runAttempts cfg store now2 tok user n st).1 =
      Except.ok rec.locator ::
        List.replicate (n - 1) (Except.error VerifyError.replayedToken) := by
  have hshape := issue_ok_shape hissue
  subst hshape
  obtain ⟨m, rfl⟩ : ∃ m, n = m + 1 :=
    ⟨n - 1, (Nat.succ_pred_eq_of_pos hn).symm⟩
  have hkey : verify cfg store st now2
      ⟨encode ⟨user, media, now, now + ttl, nonce⟩,
       mac cfg.secret (encode ⟨user, media, now, now + ttl, nonce⟩)⟩ user =
      Except.ok (rec.locator, (user, media, nonce) :: st) := by
    rw [verify_issued]
    simp [htime, hstore, hfresh, hsingle]
  have hrest := runAttempts_consumed cfg store now2
    ⟨user, media, now, now + ttl, nonce⟩ m ((user, media, nonce) :: st)
    hsingle (by simpa using htime) (by simp)
  simp [runAttempts, hkey, hrest, Nat.add_sub_cancel]

/-- Claim C4 witness: three sequential redemption attempts of the concrete
single-use token — one success, two replay rejections. -/
theorem concurrent_redemption_single_success_witness :
    (runAttempts cfgS store42 30 tok1 1 3 []).1 =
      Except.ok "locator42" ::
        List.replicate 2 (Except.error VerifyError.replayedToken) :=
  concurrent_redemption_single_success cfgS store42 [] 0 5 1 42 60 30 3
    ⟨true, "locator42"⟩ tok1 rfl rfl rfl (by simp) (by decide) (by decide)

end TokenService
